import Mathlib

/-!
# Verification of the s3o model-format core

Shallow embedding of the host-independent data/algorithm layer of the
s3o-blender-tools repository (`s3o.py`, with the companion copies of the
optimization pass in `s3o_utils.py` / `s3o_ops.py`), together with theorems
about the specified properties of that code.

Modelling conventions:
* `mathutils.Vector` components and Python floats that take part in
  arithmetic are modelled as exact rationals (`ℚ`); Python's `%` and
  `math.floor` are modelled exactly.
* float fields that are only moved through the binary codec (never
  interpreted arithmetically there) are modelled as their 32-bit patterns
  (`Nat`), exactly as `struct.pack`/`unpack` move them.
* byte buffers are `List Nat` (each entry one byte).
* fallible code (assertions, `struct.error`, `AttributeError`, ...) is
  modelled with `Except PyErr`.
* the scalar type of the geometric data is a parameter `α`, instantiated at
  `ℚ` for the arithmetic passes and at `Nat` (bit patterns) for the codec.
-/

namespace S3O_Spec

/-- Python `x % m` on numbers (result has the sign of `m`; for `m > 0`
the result is in `[0, m)`): `x - m * floor (x / m)`. -/
def pyMod (x m : ℚ) : ℚ := x - m * (⌊x / m⌋ : ℚ)

/-- Python slice `l[a:b]` with `0 ≤ a ≤ b` (the only form the embedded code
uses): take the elements at positions `a, ..., b-1`, clipping at the end. -/
def pySlice (l : List α) (a b : Nat) : List α :=
  (l.drop a).take (b - a)

/-- little-endian bytes of a 32-bit value (`struct` `"<i"` / `"<I"` payload). -/
def toLE4 (v : Nat) : List Nat :=
  [v % 256, v / 256 % 256, v / 65536 % 256, v / 16777216 % 256]

/-- read 4 little-endian bytes as an unsigned 32-bit value. -/
def readU32 (data : List Nat) (i : Nat) : Nat :=
  data.getD i 0 + 256 * data.getD (i + 1) 0 + 65536 * data.getD (i + 2) 0 +
    16777216 * data.getD (i + 3) 0

/-- read 4 little-endian bytes as a signed 32-bit value (`struct` `"<i"`). -/
def readI32 (data : List Nat) (i : Nat) : Int :=
  let u := readU32 data i
  if u < 2147483648 then (u : Int) else (u : Int) - 4294967296

/-! ## Data model (`s3o.py` lines 285-325) -/

/-- mathutils 3-component vector. -/
structure Vec3 (α : Type) where
  x : α
  y : α
  z : α
deriving DecidableEq, Repr

/-- mathutils 2-component vector (texture coordinates). -/
structure Vec2 (α : Type) where
  u : α
  v : α
deriving DecidableEq, Repr

/-- `S3OVertex` NamedTuple: position, normal, tex_coords. -/
structure S3OVertex (α : Type) where
  position : Vec3 α
  normal : Vec3 α
  tex_coords : Vec2 α
deriving DecidableEq, Repr

/-- `S3OVertex.with_position`. -/
def S3OVertex.with_position (v : S3OVertex α) (p : Vec3 α) : S3OVertex α :=
  ⟨p, v.normal, v.tex_coords⟩

/-- `S3OVertex.with_normal`. -/
def S3OVertex.with_normal (v : S3OVertex α) (n : Vec3 α) : S3OVertex α :=
  ⟨v.position, n, v.tex_coords⟩

/-- `S3OPiece.PrimitiveType`.  Note: in the source the members are declared
with trailing commas (`Triangles = 0,` etc.), so each member's `.value` is a
one-element tuple, not an int — see `PrimitiveType.value` below. -/
inductive PrimitiveType where
  | Triangles
  | TriangleStrips
  | Quads
deriving DecidableEq, Repr

/-- A Python value that is either an int or a tuple of ints, as needed to
model what `struct.pack` receives for an `"i"` slot. -/
inductive PyIntVal where
  | int (i : Int)
  | tuple (t : List Int)
deriving DecidableEq, Repr

/-- `S3OPiece.PrimitiveType.<member>.value`.  Because the enum members are
declared `Triangles = 0,` / `TriangleStrips = 1,` / `Quads = 2,` (with a
trailing comma), each value is the one-element tuple `(0,)` / `(1,)` /
`(2,)`. -/
def PrimitiveType.value : PrimitiveType → PyIntVal
  | .Triangles => .tuple [0]
  | .TriangleStrips => .tuple [1]
  | .Quads => .tuple [2]

/-- `S3OPiece` as built by hand (or by the `data == b''` branch of
`__init__`): `primitive_type` holds a `PrimitiveType` enum member.
`name` is kept as its utf-8 byte string.  The back-reference `parent` is
not modelled (it is never read by the embedded operations). -/
inductive S3OPiece (α : Type) where
  | mk (name : List Nat) (parent_offset : Vec3 α) (primitive_type : PrimitiveType)
      (vertices : List (S3OVertex α)) (indices : List Int)
      (children : List (S3OPiece α)) : S3OPiece α

def S3OPiece.name : S3OPiece α → List Nat
  | .mk n _ _ _ _ _ => n

def S3OPiece.parent_offset : S3OPiece α → Vec3 α
  | .mk _ po _ _ _ _ => po

def S3OPiece.primitive_type : S3OPiece α → PrimitiveType
  | .mk _ _ pt _ _ _ => pt

def S3OPiece.vertices : S3OPiece α → List (S3OVertex α)
  | .mk _ _ _ vs _ _ => vs

def S3OPiece.indices : S3OPiece α → List Int
  | .mk _ _ _ _ idx _ => idx

def S3OPiece.children : S3OPiece α → List (S3OPiece α)
  | .mk _ _ _ _ _ cs => cs

/-! ## Ambient-occlusion packing (`s3o.py` lines 116-117 and 296-307) -/

/-- `get_vertex_ao_value_01(u_channel)`: `(u_channel * 16384.0) % 1`. -/
def get_vertex_ao_value_01 (u_channel : ℚ) : ℚ :=
  pyMod (u_channel * 16384) 1

/-- the `ambient_occlusion` property getter:
`(self.tex_coords[0] / 2 ** 14) % 1.0`.  (Note that this *divides* the U
channel by `2^14`, unlike `get_vertex_ao_value_01`, which multiplies.) -/
def S3OVertex.ambient_occlusion (v : S3OVertex ℚ) : ℚ :=
  pyMod (v.tex_coords.u / 16384) 1

/-- the `ambient_occlusion` property setter `_set_ambient_occlusion`:
clamp the value to `[0.02, 0.98]`, then
`tex_coords[0] = floor(tex_coords[0] * 2^14) / 2^14 + value / 2^14`. -/
def S3OVertex.set_ambient_occlusion (v : S3OVertex ℚ) (value : ℚ) : S3OVertex ℚ :=
  let value := min (98 / 100) (max (2 / 100) value)
  { v with
    tex_coords :=
      ⟨(⌊v.tex_coords.u * 16384⌋ : ℚ) / 16384 + value / 16384, v.tex_coords.v⟩ }

/-! ## Triangulation (`s3o.py` lines 416-453) -/

/-- The kinds of Python exception the embedded code can raise. -/
inductive PyErr where
  | assertionError
  | attributeError
  | structError
  | structPackError
  | typeError
  | valueError
  | indexError
  | recursionError
deriving DecidableEq, Repr

/-- The loop of the `TriangleStrips` branch (lines 430-433):
`for i in range(idx_len - 2): if all(idx != -1 for idx in self.indices[i:i + 2]): new_idx.extend(self.indices[i:i + 2])`.
Note the slices take *two* elements (`[i:i+2]`), so each accepted window
contributes the two indices at positions `i` and `i+1`. -/
def strip_new_idx (indices : List Int) : List Int :=
  (List.range (indices.length - 2)).flatMap fun i =>
    let window := pySlice indices i (i + 2)
    if window.all (· ≠ -1) then window else []

/-- The loop of the `Quads` branch (lines 445-447), run only when
`len(indices) % 4 == 0`:
`for i in range(0, idx_len, 4): new_idx.extend(self.indices[i:i + 2]); new_idx.extend(self.indices[i + n] for n in [0, 2, 3])`.
Out-of-range access cannot occur under the `% 4 == 0` guard; `getD` uses a
junk default there. -/
def quad_new_idx (indices : List Int) : List Int :=
  (List.range (indices.length / 4)).flatMap fun g =>
    pySlice indices (4 * g) (4 * g + 2) ++
      [indices.getD (4 * g) 0, indices.getD (4 * g + 2) 0, indices.getD (4 * g + 3) 0]

mutual

/-- `S3OPiece.triangulate_faces`.  The `TriangleStrips` branch with three or
more indices raises `AttributeError`: line 435 reads
`S3OPiece.primitive_type.Triangles`, but `primitive_type` is only a class
*annotation* of `S3OPiece`, not an attribute (compare the correctly spelled
`S3OPiece.PrimitiveType.Triangles` on lines 440 and 449).  The degenerate
branches (`TriangleStrips` with fewer than 3 indices, `Quads` with an index
count not divisible by 4) `return` early and therefore skip the recursion
into the children. -/
def S3OPiece.triangulate_faces : S3OPiece α → Except PyErr (S3OPiece α)
  | .mk n po pt vs idx cs =>
    match pt with
    | .Triangles => do
        let cs' ← triangulate_children cs
        pure (.mk n po .Triangles vs idx cs')
    | .TriangleStrips =>
        if idx.length < 3 then
          pure (.mk n po .Triangles vs [] cs)
        else
          -- new_idx is computed (lines 428-433), then line 435 raises
          -- AttributeError before `self.primitive_type` / `self.indices`
          -- are assigned.
          .error .attributeError
    | .Quads =>
        if idx.length % 4 ≠ 0 then
          pure (.mk n po .Triangles vs [] cs)
        else do
          let cs' ← triangulate_children cs
          pure (.mk n po .Triangles vs (quad_new_idx idx) cs')

/-- the trailing `for child in self.children: child.triangulate_faces()`. -/
def triangulate_children : List (S3OPiece α) → Except PyErr (List (S3OPiece α))
  | [] => pure []
  | c :: rest => do
      let c' ← c.triangulate_faces
      let rest' ← triangulate_children rest
      pure (c' :: rest')

end

/-! ## rescale and mergechildren (`s3o.py` lines 373-414) -/

/-- componentwise scaling, as written out in `rescale`
(`parent_offset[k] * scale`, `v.position * scale`). -/
def vecScale (s : ℚ) (v : Vec3 ℚ) : Vec3 ℚ :=
  ⟨v.x * s, v.y * s, v.z * s⟩

/-- componentwise addition, as written out in `mergechildren`
(`v[0][k] + child.parent_offset[k]`). -/
def vecAdd (a b : Vec3 ℚ) : Vec3 ℚ :=
  ⟨a.x + b.x, a.y + b.y, a.z + b.z⟩

mutual

/-- `S3OPiece.rescale(scale)`: scales `parent_offset` and every vertex
position, recursively through the children; nothing else is touched. -/
def S3OPiece.rescale (scale : ℚ) : S3OPiece ℚ → S3OPiece ℚ
  | .mk n po pt vs idx cs =>
    .mk n (vecScale scale po) pt
      (vs.map fun v => v.with_position (vecScale scale v.position)) idx
      (rescale_children scale cs)

/-- the `for child in self.children: child.rescale(scale)` loop. -/
def rescale_children (scale : ℚ) : List (S3OPiece ℚ) → List (S3OPiece ℚ)
  | [] => []
  | c :: rest => c.rescale scale :: rescale_children scale rest

end

/-- the body of the `for child in self.children` loop of `mergechildren`:
append the child's vertices (positions shifted by the child's
`parent_offset`) and its indices (shifted by the running `indexoffset`). -/
def mergeStep (acc : List (S3OVertex ℚ) × List Int × Nat) (c : S3OPiece ℚ) :
    List (S3OVertex ℚ) × List Int × Nat :=
  let (nv, ni, off) := acc
  (nv ++ c.vertices.map fun v => v.with_position (vecAdd v.position c.parent_offset),
    ni ++ c.indices.map fun i => i + (off : Int),
    off + c.vertices.length)

mutual

/-- `S3OPiece.mergechildren`: merge each child first (bottom-up), then fold
the merged children into this piece's vertex/index lists and clear
`children`. -/
def S3OPiece.mergechildren : S3OPiece ℚ → S3OPiece ℚ
  | .mk n po pt vs idx cs =>
    let merged := merge_each cs
    let (nv, ni, _) := merged.foldl mergeStep (vs, idx, vs.length)
    .mk n po pt nv ni []

/-- the leading `for child in self.children: child.mergechildren()` loop. -/
def merge_each : List (S3OPiece ℚ) → List (S3OPiece ℚ)
  | [] => []
  | c :: rest => c.mergechildren :: merge_each rest

end

/-! ### Preorder extractors over the piece tree

These are not part of the source; they name the data the frame-effect
claims talk about (what a pass may and may not change). -/

mutual

/-- the `(normal, tex_coords)` payload of every vertex in the subtree, in
preorder (own vertices first, then each child's subtree in order). -/
def treeTexNs : S3OPiece ℚ → List (Vec3 ℚ × Vec2 ℚ)
  | .mk _ _ _ vs _ cs =>
    vs.map (fun v => (v.normal, v.tex_coords)) ++ treeTexNsList cs

def treeTexNsList : List (S3OPiece ℚ) → List (Vec3 ℚ × Vec2 ℚ)
  | [] => []
  | c :: rest => treeTexNs c ++ treeTexNsList rest

end

mutual

/-- every vertex position in the subtree, in preorder. -/
def treePositions : S3OPiece ℚ → List (Vec3 ℚ)
  | .mk _ _ _ vs _ cs => vs.map (·.position) ++ treePositionsList cs

def treePositionsList : List (S3OPiece ℚ) → List (Vec3 ℚ)
  | [] => []
  | c :: rest => treePositions c ++ treePositionsList rest

end

mutual

/-- every `parent_offset` in the subtree, in preorder. -/
def treeOffsets : S3OPiece ℚ → List (Vec3 ℚ)
  | .mk _ po _ _ _ cs => po :: treeOffsetsList cs

def treeOffsetsList : List (S3OPiece ℚ) → List (Vec3 ℚ)
  | [] => []
  | c :: rest => treeOffsets c ++ treeOffsetsList rest

end

mutual

/-- every piece name in the subtree, in preorder. -/
def treeNames : S3OPiece ℚ → List (List Nat)
  | .mk n _ _ _ _ cs => n :: treeNamesList cs

def treeNamesList : List (S3OPiece ℚ) → List (List Nat)
  | [] => []
  | c :: rest => treeNames c ++ treeNamesList rest

end

mutual

/-- every `primitive_type` in the subtree, in preorder. -/
def treePrimTypes : S3OPiece ℚ → List PrimitiveType
  | .mk _ _ pt _ _ cs => pt :: treePrimTypesList cs

def treePrimTypesList : List (S3OPiece ℚ) → List PrimitiveType
  | [] => []
  | c :: rest => treePrimTypes c ++ treePrimTypesList rest

end

mutual

/-- every index list in the subtree, in preorder. -/
def treeIndexLists : S3OPiece ℚ → List (List Int)
  | .mk _ _ _ _ idx cs => idx :: treeIndexListsList cs

def treeIndexListsList : List (S3OPiece ℚ) → List (List Int)
  | [] => []
  | c :: rest => treeIndexLists c ++ treeIndexListsList rest

end

/-! ## Mesh optimization pass (`optimize_piece`, `s3o.py` lines 136-176;
identical copies in `s3o_utils.py` lines 283-323 and `s3o_ops.py` lines
353-393) -/

/-- the all-zero vertex value used by the concrete instances of the
claims. -/
def defaultVertex : S3OVertex ℚ :=
  ⟨⟨0, 0, 0⟩, ⟨0, 0, 0⟩, ⟨0, 0⟩⟩

/-- Python list-index bounds: `l[i]` succeeds for `-len(l) ≤ i < len(l)`
(negative indices count from the end) and raises `IndexError` otherwise. -/
def pyIndexOk (len : Nat) (i : Int) : Bool :=
  decide (-(len : Int) ≤ i) && decide (i < (len : Int))

/-- `optimize_piece(piece)`.  The body of the first loop (lines 140-144)
evaluates `vertex = piece.vertices[index]` and then
`if vertex not in remap:`.  `remap` is a dict keyed by the `S3OVertex`
NamedTuple, whose components are *unfrozen* `mathutils.Vector`s
(`S3OPiece.__init__` builds them with `Vector(...)`, and nothing in the
repository ever calls `.freeze()` on a vertex vector — only the
module-level space-conversion matrices are frozen), and mathutils objects
are unhashable until frozen, so the dict membership test raises
`TypeError: unhashable type: 'Vector'` on the first iteration — preceded
by `IndexError` instead when that first index is out of range.  Only a
piece with an empty index list completes: the loop never runs, the
cache-reorder branch (lines 150-159) is skipped (`len(new_indices) > 0` is
false — and its other conjunct, `piece.primitive_type == "triangles"`,
compares an enum member with a `str` and is always false anyway), the
second renaming loop (lines 161-170) is empty, and lines 172-176 replace
both the vertex and the index list with `[]`, dropping every vertex. -/
def optimize_piece (p : S3OPiece ℚ) : Except PyErr (S3OPiece ℚ) :=
  match p.indices with
  | [] => .ok (.mk p.name p.parent_offset p.primitive_type [] [] p.children)
  | i :: _ =>
    if pyIndexOk p.vertices.length i then .error .typeError
    else .error .indexError

/-! ## Binary codec — encode (`s3o.py` lines 455-516 and 550-570)

Float fields are moved through the codec as 32-bit patterns (`Nat`), which
is exactly what `struct.pack("<f")`/`unpack` do with an f32-valued float. -/

/-- `struct.pack` of one `"i"` slot: requires an integer in the signed
32-bit range; any other argument (such as a tuple) raises
`struct.error("required argument is not an integer")`. -/
def packIntArg : PyIntVal → Except PyErr (List Nat)
  | .int i =>
      if -2147483648 ≤ i ∧ i < 2147483648 then
        pure (toLE4 ((i % 4294967296).toNat))
      else .error .structPackError
  | .tuple _ => .error .structPackError

/-- `struct.pack` of one `"i"` slot applied to a real int. -/
def packI32 (i : Int) : Except PyErr (List Nat) :=
  packIntArg (.int i)

/-- `_S3OPiece_struct.pack` (`"< 10i 3f"`), with the seventh slot receiving
whatever Python value `self.primitive_type.value` is. -/
def pack_S3OPiece_header (name_offset num_children children_offset num_vertices
    vertex_offset vertex_type : Int) (primitive_type : PyIntVal)
    (num_indices index_offset collision_data_offset : Int)
    (ox oy oz : Nat) : Except PyErr (List Nat) := do
  let b1 ← packI32 name_offset
  let b2 ← packI32 num_children
  let b3 ← packI32 children_offset
  let b4 ← packI32 num_vertices
  let b5 ← packI32 vertex_offset
  let b6 ← packI32 vertex_type
  let b7 ← packIntArg primitive_type
  let b8 ← packI32 num_indices
  let b9 ← packI32 index_offset
  let b10 ← packI32 collision_data_offset
  pure (b1 ++ b2 ++ b3 ++ b4 ++ b5 ++ b6 ++ b7 ++ b8 ++ b9 ++ b10 ++
    toLE4 ox ++ toLE4 oy ++ toLE4 oz)

/-- the `_S3OVertex_struct.pack` payload of one vertex (`"< 3f 3f 2f"`). -/
def packVertex (v : S3OVertex Nat) : List Nat :=
  toLE4 v.position.x ++ toLE4 v.position.y ++ toLE4 v.position.z ++
    toLE4 v.normal.x ++ toLE4 v.normal.y ++ toLE4 v.normal.z ++
    toLE4 v.tex_coords.u ++ toLE4 v.tex_coords.v

/-- the `for index in self.indices: ... += _S3OIndex_struct.pack(index)`
loop. -/
def pack_index_list : List Int → Except PyErr (List Nat)
  | [] => pure []
  | i :: rest => do
      let b ← packI32 i
      let bs ← pack_index_list rest
      pure (b ++ bs)

/-- the second-pass `for child_offset in child_offsets: ... pack(child_offset)`
loop. -/
def pack_child_offsets : List Int → Except PyErr (List Nat)
  | [] => pure []
  | o :: rest => do
      let b ← packI32 o
      let bs ← pack_child_offsets rest
      pure (b ++ bs)

mutual

/-- `S3OPiece.serialize(offset)`.  Layout quirk kept from the source: the
index loop (line 478) appends to `vertex_data`, not `index_data`, but
`index_offset` was computed beforehand (line 475), so the resulting layout
is still the intended one and `index_data` stays empty.  The call to
`_S3OPiece_struct.pack` receives `self.primitive_type.value` — a one-element
tuple — for its `"i"` slot, so it raises `struct.error` for every piece
whose `primitive_type` is a `PrimitiveType` member; the remainder after that
call is modelled for completeness but is unreachable. -/
def S3OPiece.serialize : S3OPiece Nat → Int → Except PyErr (List Nat)
  | .mk nm po pt vs idx cs, offset => do
    let name_offset := 52 + offset
    let encoded_name := nm ++ [0]
    let children_offset := name_offset + encoded_name.length
    let child_data := (cs.map fun _ => toLE4 0).flatten
    let vertex_offset := children_offset + child_data.length
    let vertex_data₀ := (vs.map packVertex).flatten
    let index_offset := vertex_offset + vertex_data₀.length
    let vertex_data := vertex_data₀ ++ (← pack_index_list idx)
    let index_data : List Nat := []
    let primitive_type := pt.value
    let piece_header ← pack_S3OPiece_header name_offset cs.length
      children_offset vs.length vertex_offset 0 primitive_type
      idx.length index_offset 0 po.x po.y po.z
    let data := piece_header ++ encoded_name ++ child_data ++ vertex_data ++ index_data
    let (child_offsets, serialized_child_data) ←
      serialize_children (offset + data.length) cs
    let child_data' ← pack_child_offsets child_offsets
    pure (piece_header ++ encoded_name ++ child_data' ++ vertex_data ++
      index_data ++ serialized_child_data)

/-- the child-serialization loop (lines 503-508): each child's start offset
is the running byte cursor. -/
def serialize_children (base : Int) :
    List (S3OPiece Nat) → Except PyErr (List Int × List Nat)
  | [] => pure ([], [])
  | c :: rest => do
      let d ← c.serialize base
      let (offs, ds) ← serialize_children (base + d.length) rest
      pure (base :: offs, d ++ ds)

end

/-- the 12 magic bytes `b"Spring unit\x00"`. -/
def springMagic : List Nat :=
  [83, 112, 114, 105, 110, 103, 32, 117, 110, 105, 116, 0]

/-- `_S3OHeader_struct.pack` (`"< 12s i 5f 4i"`); the `"12s"` slot
truncates/zero-pads its bytes argument to 12 bytes. -/
def pack_S3OHeader (magic : List Nat) (version : Int) (radius height midx midy
    midz : Nat) (root_offset collision_data_offset tex1_offset tex2_offset :
    Int) : Except PyErr (List Nat) := do
  let m := magic.take 12 ++ List.replicate (12 - magic.length) 0
  let bv ← packI32 version
  let b1 ← packI32 root_offset
  let b2 ← packI32 collision_data_offset
  let b3 ← packI32 tex1_offset
  let b4 ← packI32 tex2_offset
  pure (m ++ bv ++ toLE4 radius ++ toLE4 height ++ toLE4 midx ++ toLE4 midy ++
    toLE4 midz ++ b1 ++ b2 ++ b3 ++ b4)

/-- the `S3O` model as built by hand (write path); header floats as 32-bit
patterns, texture paths as their utf-8 bytes. -/
structure S3O where
  collision_radius : Nat
  height : Nat
  midpoint : Vec3 Nat
  texture_paths : List Nat × List Nat
  root_piece : S3OPiece Nat

/-- `S3O.serialize()`: header, both NUL-terminated texture paths, then the
root piece subtree at the running offset. -/
def S3O.serialize (s : S3O) : Except PyErr (List Nat) := do
  let encoded_texpath1 := s.texture_paths.1 ++ [0]
  let encoded_texpath2 := s.texture_paths.2 ++ [0]
  let tex1_offset : Int := 52
  let tex2_offset := tex1_offset + encoded_texpath1.length
  let root_offset := tex2_offset + encoded_texpath2.length
  let header ← pack_S3OHeader springMagic 0 s.collision_radius s.height
    s.midpoint.x s.midpoint.y s.midpoint.z root_offset 0 tex1_offset
    tex2_offset
  let data := header ++ encoded_texpath1 ++ encoded_texpath2
  let rootData ← s.root_piece.serialize data.length
  pure (data ++ rootData)

/-! ## Binary codec — decode (`s3o.py` lines 104-113, 327-371 and 526-545) -/

/-- normalization of a Python start index for `bytes.index(sub, start)`:
negative values count from the end (clamped at 0), values past the end clamp
to the length. -/
def pyNormStart (len : Nat) (i : Int) : Nat :=
  if i < 0 then ((len : Int) + i).toNat else min i.toNat len

/-- `_extract_null_terminated_string(data, offset)`: an offset of `0` yields
the empty string; otherwise the bytes from `offset` up to the first NUL
(`data.index(b'\x00', offset)` raises `ValueError` when there is none).
The utf-8 decode step is not modelled (strings are kept as their bytes). -/
def extract_null_terminated_string (data : List Nat) (offset : Int) :
    Except PyErr (List Nat) :=
  if offset = 0 then pure []
  else
    let start := pyNormStart data.length offset
    match (data.drop start).findIdx? (· == 0) with
    | none => .error .valueError
    | some k => pure ((data.drop start).take k)

/-- `struct.unpack_from(buffer, offset)` bounds handling: a negative offset
counts from the end; reading fails with `struct.error` unless
`offset + size ≤ len`. Returns the normalized offset on success. -/
def unpackFromOk (len : Nat) (offset : Int) (size : Nat) : Option Nat :=
  let o := if offset < 0 then offset + len else offset
  if 0 ≤ o ∧ o + size ≤ (len : Int) then some o.toNat else none

/-- the value held by the `primitive_type` attribute of a `S3OPiece` at
runtime: the `data == b''` constructor branch stores a `PrimitiveType` enum
member, while the byte-decoding branch stores the raw unpacked int. -/
inductive PrimTypeSlot where
  | enum (t : PrimitiveType)
  | raw (i : Int)
deriving DecidableEq, Repr

/-- the runtime shape of an `S3OPiece` produced by `S3OPiece.__init__`:
float fields are 32-bit patterns, `primitive_type` is a `PrimTypeSlot`. -/
inductive DecodedPiece where
  | mk (name : List Nat) (parent_offset : Vec3 Nat) (primitive_type : PrimTypeSlot)
      (vertices : List (S3OVertex Nat)) (indices : List Int)
      (children : List DecodedPiece) : DecodedPiece
deriving Repr

/-- the vertex-reading loop of `S3OPiece.__init__` (lines 350-359):
`_S3OVertex_struct.unpack_from(data, vertex_offset + 32 * i)` for
`i in range(num_vertices)`. -/
def decode_vertex_list (data : List Nat) : Int → Nat → Except PyErr (List (S3OVertex Nat))
  | _, 0 => pure []
  | off, n + 1 =>
    match unpackFromOk data.length off 32 with
    | none => .error .structError
    | some o => do
        let v : S3OVertex Nat :=
          ⟨⟨readU32 data o, readU32 data (o + 4), readU32 data (o + 8)⟩,
            ⟨readU32 data (o + 12), readU32 data (o + 16), readU32 data (o + 20)⟩,
            ⟨readU32 data (o + 24), readU32 data (o + 28)⟩⟩
        let rest ← decode_vertex_list data (off + 32) n
        pure (v :: rest)

/-- the index-reading loop of `S3OPiece.__init__` (lines 361-365). -/
def decode_index_list (data : List Nat) : Int → Nat → Except PyErr (List Int)
  | _, 0 => pure []
  | off, n + 1 =>
    match unpackFromOk data.length off 4 with
    | none => .error .structError
    | some o => do
        let rest ← decode_index_list data (off + 4) n
        pure (readI32 data o :: rest)

mutual

/-- `S3OPiece.__init__(data, offset)` for `data ≠ b''` (the `data == b''`
branch constructs the hand-built shape and is modelled by `S3OPiece.mk`;
here it is kept for faithfulness).  Unpacks the `"< 10i 3f"` piece header,
the name, the vertex/index records and recursively the children.  Negative
counts give empty loops (`range(n)`).  `fuel` bounds the recursion depth,
standing for Python's recursion limit (`RecursionError` on malicious
self-referential offset graphs). -/
def DecodedPiece.decode : Nat → List Nat → Int → Except PyErr DecodedPiece
  | 0, _, _ => .error .recursionError
  | _ + 1, [], _ =>
    pure (.mk [98, 97, 115, 101] ⟨0, 0, 0⟩ (.enum .Triangles) [] [] [])
  | fuel + 1, data, offset =>
    match unpackFromOk data.length offset 52 with
    | none => .error .structError
    | some o => do
        let name_offset := readI32 data o
        let num_children := readI32 data (o + 4)
        let children_offset := readI32 data (o + 8)
        let num_vertices := readI32 data (o + 12)
        let vertex_offset := readI32 data (o + 16)
        let primitive_type := readI32 data (o + 24)
        let num_indices := readI32 data (o + 28)
        let index_offset := readI32 data (o + 32)
        let x_offset := readU32 data (o + 40)
        let y_offset := readU32 data (o + 44)
        let z_offset := readU32 data (o + 48)
        let nm ← extract_null_terminated_string data name_offset
        let vs ← decode_vertex_list data vertex_offset num_vertices.toNat
        let idx ← decode_index_list data index_offset num_indices.toNat
        let cs ← decode_child_list fuel data children_offset num_children.toNat
        pure (.mk nm ⟨x_offset, y_offset, z_offset⟩ (.raw primitive_type) vs idx cs)

/-- the child-reading loop of `S3OPiece.__init__` (lines 367-371): read each
child's offset from the offset table and decode it recursively. -/
def decode_child_list : Nat → List Nat → Int → Nat → Except PyErr (List DecodedPiece)
  | _, _, _, 0 => pure []
  | fuel, data, off, n + 1 =>
    match unpackFromOk data.length off 4 with
    | none => .error .structError
    | some o => do
        let child ← DecodedPiece.decode fuel data (readI32 data o)
        let rest ← decode_child_list fuel data (off + 4) n
        pure (child :: rest)

end

/-- the runtime shape of an `S3O` decoded from bytes. -/
structure DecodedS3O where
  collision_radius : Nat
  height : Nat
  midpoint : Vec3 Nat
  texture_paths : List Nat × List Nat
  root_piece : DecodedPiece
deriving Repr

/-- `S3O.__init__(data)`: unpack the `"< 12s i 5f 4i"` header, `assert` the
magic bytes, the version and the collision-data offset (each a bare
`assert`, i.e. `AssertionError` on failure), then read both texture paths
and decode the root piece.  The recursion-depth fuel is `1000`, Python's
default recursion limit. -/
def S3O.decode (data : List Nat) : Except PyErr DecodedS3O :=
  match unpackFromOk data.length 0 52 with
  | none => .error .structError
  | some _ => do
      let magic := pySlice data 0 12
      let version := readI32 data 12
      let radius := readU32 data 16
      let height := readU32 data 20
      let mid_x := readU32 data 24
      let mid_y := readU32 data 28
      let mid_z := readU32 data 32
      let root_piece_offset := readI32 data 36
      let collision_data_offset := readI32 data 40
      let tex1_offset := readI32 data 44
      let tex2_offset := readI32 data 48
      if magic ≠ springMagic then .error .assertionError
      else if version ≠ 0 then .error .assertionError
      else if collision_data_offset ≠ 0 then .error .assertionError
      else do
        let t1 ← extract_null_terminated_string data tex1_offset
        let t2 ← extract_null_terminated_string data tex2_offset
        let root ← DecodedPiece.decode 1000 data root_piece_offset
        pure ⟨radius, height, ⟨mid_x, mid_y, mid_z⟩, (t1, t2), root⟩

/-! ## Helper lemmas -/

/-- a hand-built child piece (`"child"`, empty geometry). -/
def c1_child : S3OPiece Nat :=
  .mk [99, 104, 105, 108, 100] ⟨0, 0, 0⟩ .Triangles [] [] []

/-- a hand-built root piece `"base"` with 3 vertices (f32 patterns of
`1.0`, `2.0`, `3.0` on the x coordinates), one triangle and one child. -/
def c1_root : S3OPiece Nat :=
  .mk [98, 97, 115, 101] ⟨0, 0, 0⟩ .Triangles
    [⟨⟨1065353216, 0, 0⟩, ⟨0, 1065353216, 0⟩, ⟨0, 0⟩⟩,
      ⟨⟨1073741824, 0, 0⟩, ⟨0, 1065353216, 0⟩, ⟨0, 0⟩⟩,
      ⟨⟨1077936128, 0, 0⟩, ⟨0, 1065353216, 0⟩, ⟨0, 0⟩⟩]
    [0, 1, 2] [c1_child]

/-- a hand-built minimal model: radius `10.0f`, height `20.0f`, midpoint
`(0, 5.0f, 0)` (as f32 patterns), texture paths `"tex1"`/`"tex2"`. -/
def c1_model : S3O :=
  ⟨1092616192, 1101004800, ⟨0, 1084227584, 0⟩,
    ([116, 101, 120, 49], [116, 101, 120, 50]), c1_root⟩

/-- a 52-byte buffer of zeros: correct header length, wrong magic. -/
def c2_bad_magic : List Nat := List.replicate 52 0

/-- a 52-byte buffer with correct magic, version `0`, and a *non-zero*
collision-data offset (the int32 at byte 40). -/
def c2_nonzero_collision : List Nat :=
  springMagic ++ [0, 0, 0, 0] ++ List.replicate 20 0 ++ [0, 0, 0, 0] ++
    [1, 0, 0, 0] ++ [0, 0, 0, 0] ++ [0, 0, 0, 0]

/-- a second vertex value, distinct from `defaultVertex`, for the C7
instances. -/
def c7_vB : S3OVertex ℚ := ⟨⟨1, 0, 0⟩, ⟨0, 0, 0⟩, ⟨0, 0⟩⟩

/-- the quad index pattern as the spec/claim words it: each consecutive
group of 4 indices `(a, b, c, d)` contributes `(a, b, a, c, d)`, in group
order.  (Claim-side definition, compared against the source loop
`quad_new_idx`.) -/
def claimQuadPattern : List Int → List Int
  | a :: b :: c :: d :: rest => a :: b :: a :: c :: d :: claimQuadPattern rest
  | _ => []

theorem quad_window_shift (a b c d : Int) (rest : List Int) (g : Nat) :
    (pySlice (a :: b :: c :: d :: rest) (4 * (g + 1)) (4 * (g + 1) + 2) ++
      [(a :: b :: c :: d :: rest).getD (4 * (g + 1)) 0,
        (a :: b :: c :: d :: rest).getD (4 * (g + 1) + 2) 0,
        (a :: b :: c :: d :: rest).getD (4 * (g + 1) + 3) 0]) =
    (pySlice rest (4 * g) (4 * g + 2) ++
      [rest.getD (4 * g) 0, rest.getD (4 * g + 2) 0, rest.getD (4 * g + 3) 0]) := by
  have ha : 4 * (g + 1) + 2 - 4 * (g + 1) = 2 := by omega
  have hb : 4 * g + 2 - 4 * g = 2 := by omega
  have h1 : 4 * (g + 1) = 4 * g + 1 + 1 + 1 + 1 := by ring
  have h2 : 4 * (g + 1) + 2 = 4 * g + 2 + 1 + 1 + 1 + 1 := by ring
  have h3 : 4 * (g + 1) + 3 = 4 * g + 3 + 1 + 1 + 1 + 1 := by ring
  simp only [pySlice, ha, hb, h1, h2, h3, List.drop_succ_cons, List.getD_cons_succ]
  have hc : 4 * g + 1 + 1 + 1 + 1 + 2 - (4 * g + 1 + 1 + 1 + 1) = 2 := by omega
  rw [hc]

theorem quad_new_idx_cons (a b c d : Int) (rest : List Int) :
    quad_new_idx (a :: b :: c :: d :: rest) =
      a :: b :: a :: c :: d :: quad_new_idx rest := by
  unfold quad_new_idx
  have hlen : (a :: b :: c :: d :: rest).length / 4 = rest.length / 4 + 1 := by
    simp only [List.length_cons]
    omega
  rw [hlen, List.range_succ_eq_map, List.flatMap_cons, List.flatMap_map]
  have htail : List.flatMap (List.range (rest.length / 4))
      (fun g =>
        pySlice (a :: b :: c :: d :: rest) (4 * (g + 1)) (4 * (g + 1) + 2) ++
          [(a :: b :: c :: d :: rest).getD (4 * (g + 1)) 0,
            (a :: b :: c :: d :: rest).getD (4 * (g + 1) + 2) 0,
            (a :: b :: c :: d :: rest).getD (4 * (g + 1) + 3) 0]) =
      List.flatMap (List.range (rest.length / 4))
        (fun g => pySlice rest (4 * g) (4 * g + 2) ++
          [rest.getD (4 * g) 0, rest.getD (4 * g + 2) 0, rest.getD (4 * g + 3) 0]) :=
    List.flatMap_congr fun x _ => quad_window_shift a b c d rest x
  exact htail ▸ rfl

theorem quad_new_idx_eq_claim : ∀ (idx : List Int), idx.length % 4 = 0 →
    quad_new_idx idx = claimQuadPattern idx
  | [], _ => rfl
  | [_], h => by simp at h
  | [_, _], h => by simp at h
  | [_, _, _], h => by simp at h
  | a :: b :: c :: d :: rest, h => by
    have h' : rest.length % 4 = 0 := by
      simp only [List.length_cons] at h
      omega
    rw [quad_new_idx_cons, quad_new_idx_eq_claim rest h']
    rfl

/-- strong induction over the piece tree. -/
theorem S3OPiece.strong_ind {α : Type} [SizeOf α] {motive : S3OPiece α → Prop}
    (h : ∀ nm po pt vs idx cs, (∀ c ∈ cs, motive c) →
      motive (.mk nm po pt vs idx cs)) :
    ∀ p, motive p := by
  have key : ∀ (k : Nat) (p : S3OPiece α), sizeOf p ≤ k → motive p := by
    intro k
    induction k with
    | zero =>
      intro p hp
      cases p with
      | mk nm po pt vs idx cs =>
        simp only [S3OPiece.mk.sizeOf_spec] at hp
        omega
    | succ k ihk =>
      intro p hp
      cases p with
      | mk nm po pt vs idx cs =>
        apply h
        intro c hc
        apply ihk
        have h1 : sizeOf c < sizeOf cs := List.sizeOf_lt_of_mem hc
        simp only [S3OPiece.mk.sizeOf_spec] at hp
        omega
  exact fun p => key (sizeOf p) p le_rfl

/-- every index is a valid (non-negative, in-bounds) position into the
vertex list. -/
def inRangeIdx (vs : List (S3OVertex α)) (idx : List Int) : Bool :=
  idx.all fun i => decide (0 ≤ i) && decide (i < (vs.length : Int))

mutual

/-- input validity for the amended C4: every piece in the subtree is
`Triangles`, or `Quads` with an index count divisible by 4 (the cases in
which `triangulate_faces` neither raises `AttributeError` — the strips
branch — nor returns early and skips its children), and every index is in
`[0, len(vertices))`. -/
def goodForTriangulate : S3OPiece α → Bool
  | .mk _ _ pt vs idx cs =>
    (match pt with
      | .Triangles => true
      | .TriangleStrips => false
      | .Quads => idx.length % 4 == 0) &&
      inRangeIdx vs idx && goodForTriangulateList cs

def goodForTriangulateList : List (S3OPiece α) → Bool
  | [] => true
  | c :: rest => goodForTriangulate c && goodForTriangulateList rest

end

mutual

/-- the canonical post-triangulation state the claim describes, minus the
multiple-of-3 clause: every piece of the subtree is `Triangles` and every
index is in `[0, len(vertices))`. -/
def allTrianglesInRange : S3OPiece α → Bool
  | .mk _ _ pt vs idx cs =>
    decide (pt = PrimitiveType.Triangles) && inRangeIdx vs idx &&
      allTrianglesInRangeList cs

def allTrianglesInRangeList : List (S3OPiece α) → Bool
  | [] => true
  | c :: rest => allTrianglesInRange c && allTrianglesInRangeList rest

end

theorem mem_claimQuadPattern : ∀ (l : List Int), ∀ x ∈ claimQuadPattern l, x ∈ l
  | a :: b :: c :: d :: rest, x, hx => by
    simp only [claimQuadPattern, List.mem_cons] at hx ⊢
    rcases hx with h | h | h | h | h | h
    · exact .inl h
    · exact .inr (.inl h)
    · exact .inl h
    · exact .inr (.inr (.inl h))
    · exact .inr (.inr (.inr (.inl h)))
    · exact .inr (.inr (.inr (.inr (mem_claimQuadPattern rest x h))))
  | [], x, hx => by simp [claimQuadPattern] at hx
  | [_], x, hx => by simp [claimQuadPattern] at hx
  | [_, _], x, hx => by simp [claimQuadPattern] at hx
  | [_, _, _], x, hx => by simp [claimQuadPattern] at hx

theorem inRangeIdx_of_sub (vs : List (S3OVertex α)) (l l' : List Int)
    (hsub : ∀ x ∈ l', x ∈ l) (h : inRangeIdx vs l = true) :
    inRangeIdx vs l' = true := by
  simp only [inRangeIdx, List.all_eq_true] at h ⊢
  exact fun x hx => h x (hsub x hx)

@[simp] theorem with_position_position (v : S3OVertex α) (p : Vec3 α) :
    (v.with_position p).position = p := rfl

@[simp] theorem with_position_normal (v : S3OVertex α) (p : Vec3 α) :
    (v.with_position p).normal = v.normal := rfl

@[simp] theorem with_position_tex_coords (v : S3OVertex α) (p : Vec3 α) :
    (v.with_position p).tex_coords = v.tex_coords := rfl

theorem rescale_children_eq_map (s : ℚ) (cs : List (S3OPiece ℚ)) :
    rescale_children s cs = cs.map (S3OPiece.rescale s) := by
  induction cs with
  | nil => rfl
  | cons c rest ihl => simp only [rescale_children, List.map_cons, ihl]

theorem merge_each_eq_map (cs : List (S3OPiece ℚ)) :
    merge_each cs = cs.map S3OPiece.mergechildren := by
  induction cs with
  | nil => rfl
  | cons c rest ihl => simp only [merge_each, List.map_cons, ihl]

theorem merge_fold_fst (l : List (S3OPiece ℚ)) :
    ∀ (nv : List (S3OVertex ℚ)) (ni : List Int) (off : Nat),
    (l.foldl mergeStep (nv, ni, off)).1 =
      nv ++ l.flatMap (fun c => c.vertices.map fun v =>
        v.with_position (vecAdd v.position c.parent_offset)) := by
  induction l with
  | nil => intro nv ni off; simp
  | cons c rest ihl =>
    intro nv ni off
    simp only [List.foldl_cons, mergeStep, List.flatMap_cons, ihl,
      List.append_assoc]

theorem merge_fold_idx_len (l : List (S3OPiece ℚ)) :
    ∀ (nv : List (S3OVertex ℚ)) (ni : List Int) (off : Nat),
    ((l.foldl mergeStep (nv, ni, off)).2.1).length =
      ni.length + (l.map fun c => c.indices.length).sum := by
  induction l with
  | nil => intro nv ni off; simp
  | cons c rest ihl =>
    intro nv ni off
    simp only [List.foldl_cons, mergeStep, List.map_cons, List.sum_cons, ihl,
      List.length_append, List.length_map]
    omega

/-- the `(normal, tex_coords)` payload of a vertex list. -/
def vertsTexNs (vs : List (S3OVertex ℚ)) : List (Vec3 ℚ × Vec2 ℚ) :=
  vs.map fun v => (v.normal, v.tex_coords)

theorem rescale_treeTexNs (s : ℚ) : ∀ p : S3OPiece ℚ,
    treeTexNs (p.rescale s) = treeTexNs p := by
  intro p
  induction p using S3OPiece.strong_ind with
  | _ nm po pt vs idx cs ih =>
    simp only [S3OPiece.rescale, treeTexNs]
    congr 1
    · simp [List.map_map, Function.comp]
    · induction cs with
      | nil => rfl
      | cons c rest ihl =>
        simp only [rescale_children, treeTexNsList]
        rw [ih c (List.mem_cons_self c rest),
          ihl (fun c' h' => ih c' (List.mem_cons_of_mem _ h'))]

theorem rescale_treePositions (s : ℚ) : ∀ p : S3OPiece ℚ,
    treePositions (p.rescale s) = (treePositions p).map (vecScale s) := by
  intro p
  induction p using S3OPiece.strong_ind with
  | _ nm po pt vs idx cs ih =>
    simp only [S3OPiece.rescale, treePositions, List.map_append]
    congr 1
    · simp [List.map_map, Function.comp]
    · induction cs with
      | nil => rfl
      | cons c rest ihl =>
        simp only [rescale_children, treePositionsList, List.map_append]
        rw [ih c (List.mem_cons_self c rest),
          ihl (fun c' h' => ih c' (List.mem_cons_of_mem _ h'))]

theorem rescale_treeOffsets (s : ℚ) : ∀ p : S3OPiece ℚ,
    treeOffsets (p.rescale s) = (treeOffsets p).map (vecScale s) := by
  intro p
  induction p using S3OPiece.strong_ind with
  | _ nm po pt vs idx cs ih =>
    simp only [S3OPiece.rescale, treeOffsets, List.map_cons]
    congr 1
    induction cs with
    | nil => rfl
    | cons c rest ihl =>
      simp only [rescale_children, treeOffsetsList, List.map_append]
      rw [ih c (List.mem_cons_self c rest),
        ihl (fun c' h' => ih c' (List.mem_cons_of_mem _ h'))]

theorem rescale_treeNames (s : ℚ) : ∀ p : S3OPiece ℚ,
    treeNames (p.rescale s) = treeNames p := by
  intro p
  induction p using S3OPiece.strong_ind with
  | _ nm po pt vs idx cs ih =>
    simp only [S3OPiece.rescale, treeNames]
    congr 1
    induction cs with
    | nil => rfl
    | cons c rest ihl =>
      simp only [rescale_children, treeNamesList]
      rw [ih c (List.mem_cons_self c rest),
        ihl (fun c' h' => ih c' (List.mem_cons_of_mem _ h'))]

theorem rescale_treePrimTypes (s : ℚ) : ∀ p : S3OPiece ℚ,
    treePrimTypes (p.rescale s) = treePrimTypes p := by
  intro p
  induction p using S3OPiece.strong_ind with
  | _ nm po pt vs idx cs ih =>
    simp only [S3OPiece.rescale, treePrimTypes]
    congr 1
    induction cs with
    | nil => rfl
    | cons c rest ihl =>
      simp only [rescale_children, treePrimTypesList]
      rw [ih c (List.mem_cons_self c rest),
        ihl (fun c' h' => ih c' (List.mem_cons_of_mem _ h'))]

theorem rescale_treeIndexLists (s : ℚ) : ∀ p : S3OPiece ℚ,
    treeIndexLists (p.rescale s) = treeIndexLists p := by
  intro p
  induction p using S3OPiece.strong_ind with
  | _ nm po pt vs idx cs ih =>
    simp only [S3OPiece.rescale, treeIndexLists]
    congr 1
    induction cs with
    | nil => rfl
    | cons c rest ihl =>
      simp only [rescale_children, treeIndexListsList]
      rw [ih c (List.mem_cons_self c rest),
        ihl (fun c' h' => ih c' (List.mem_cons_of_mem _ h'))]

theorem mergechildren_vertsTexNs : ∀ p : S3OPiece ℚ,
    vertsTexNs (p.mergechildren).vertices = treeTexNs p := by
  intro p
  induction p using S3OPiece.strong_ind with
  | _ nm po pt vs idx cs ih =>
    simp only [S3OPiece.mergechildren, S3OPiece.vertices, merge_fold_fst,
      merge_each_eq_map, treeTexNs, vertsTexNs, List.map_append]
    congr 1
    rw [List.flatMap_map, List.map_flatMap]
    induction cs with
    | nil => rfl
    | cons c rest ihl =>
      simp only [List.flatMap_cons, treeTexNsList]
      rw [← ihl (fun c' h' => ih c' (List.mem_cons_of_mem _ h'))]
      congr 1
      have hc := ih c (List.mem_cons_self c rest)
      rw [← hc]
      simp only [vertsTexNs, List.map_map, Function.comp_def,
        with_position_normal, with_position_tex_coords]
      rfl

theorem mergechildren_mk (nm : List Nat) (po : Vec3 ℚ) (pt : PrimitiveType)
    (vs : List (S3OVertex ℚ)) (idx : List Int) (cs : List (S3OPiece ℚ)) :
    ∃ nv ni, S3OPiece.mergechildren (.mk nm po pt vs idx cs) =
      .mk nm po pt nv ni [] := by
  simp only [S3OPiece.mergechildren]
  exact ⟨_, _, rfl⟩

theorem mergechildren_idx_len : ∀ p : S3OPiece ℚ,
    (p.mergechildren).indices.length = ((treeIndexLists p).map List.length).sum := by
  intro p
  induction p using S3OPiece.strong_ind with
  | _ nm po pt vs idx cs ih =>
    simp only [S3OPiece.mergechildren, S3OPiece.indices, merge_fold_idx_len,
      merge_each_eq_map, treeIndexLists, List.map_cons, List.sum_cons,
      List.map_map]
    congr 1
    induction cs with
    | nil => rfl
    | cons c rest ihl =>
      simp only [List.map_cons, List.sum_cons, treeIndexListsList,
        List.map_append, List.sum_append]
      rw [← ihl (fun c' h' => ih c' (List.mem_cons_of_mem _ h'))]
      congr 1
      exact ih c (List.mem_cons_self c rest)

/-! ## Claims -/

/-- C1 (the code, evaluated at the failing input): serializing any
hand-built model raises `struct.error`, because `S3OPiece.serialize` passes
`self.primitive_type.value` — the one-element tuple `(0,)`, as the
`PrimitiveType` members are declared with trailing commas — to the `"i"`
primitive-type slot of `_S3OPiece_struct.pack`, which requires an integer.
No byte buffer is ever produced, so `decode(encode(m))` cannot round-trip. -/
theorem serialize_raises_struct_error :
    PrimitiveType.Triangles.value = PyIntVal.tuple [0] ∧
      S3O.serialize c1_model = .error .structPackError := by
  constructor
  · rfl
  · rfl

/-- C2 (counterexample to the claimed error distinction): a wrong-magic
buffer and a non-zero-collision-offset buffer fail with the *same* error —
all three header checks are bare `assert` statements raising
`AssertionError`; the code defines no `FormatError` or
`UnsupportedFeatureError` at all, so the two failure cases are not
distinguishable as the claim states. -/
theorem decode_errors_not_distinct :
    S3O.decode c2_bad_magic = .error .assertionError ∧
      S3O.decode c2_nonzero_collision = .error .assertionError ∧
      S3O.decode c2_bad_magic = S3O.decode c2_nonzero_collision := by
  refine ⟨?_, ?_, ?_⟩ <;> rfl

/-- C2 (amended): for every buffer long enough for the header to unpack,
decode fails — with the single error kind `AssertionError` in all three
cases — whenever the magic is not `"Spring unit\0"`, the version is not
`0`, or the collision-data offset is non-zero; no model value is returned
in any of these cases. -/
theorem decode_invalid_header_asserts (data : List Nat) (hlen : 52 ≤ data.length)
    (h : pySlice data 0 12 ≠ springMagic ∨ readI32 data 12 ≠ 0 ∨
      readI32 data 40 ≠ 0) :
    S3O.decode data = .error .assertionError := by
  have hok : unpackFromOk data.length 0 52 = some 0 := by
    simp only [unpackFromOk]
    norm_num
    omega
  unfold S3O.decode
  rw [hok]
  by_cases hm : pySlice data 0 12 = springMagic
  · by_cases hv : readI32 data 12 = 0
    · have hc : readI32 data 40 ≠ 0 := by tauto
      simp [hm, hv, hc]
    · simp [hm, hv]
  · simp [hm]

theorem decode_invalid_header_asserts_witness :
    (52 ≤ c2_bad_magic.length ∧ pySlice c2_bad_magic 0 12 ≠ springMagic) ∧
      S3O.decode c2_bad_magic = .error .assertionError :=
  ⟨⟨by decide, by decide⟩,
    decode_invalid_header_asserts c2_bad_magic (by decide) (.inl (by decide))⟩

/-- C4 (amended): if every piece in the subtree is `Triangles` or `Quads`
with an index count divisible by 4, and every index is in
`[0, len(vertices))`, then `triangulate_faces` succeeds and every piece of
the result has `primitive_type == Triangles` with every index in
`[0, len(vertices))`.  (The original multiple-of-3 clause is dropped: each
quad group contributes 5 indices — see the counterexample — and on other
inputs the pass can raise `AttributeError` or return early, leaving
children untouched.) -/
theorem triangulate_faces_good_input (p : S3OPiece ℚ)
    (hp : goodForTriangulate p = true) :
    ∃ q, p.triangulate_faces = .ok q ∧ allTrianglesInRange q = true := by
  revert hp
  induction p using S3OPiece.strong_ind with
  | _ nm po pt vs idx cs ih =>
    intro hp
    simp only [goodForTriangulate, Bool.and_eq_true] at hp
    obtain ⟨⟨hpt, hidx⟩, hcsgood⟩ := hp
    have hchild : ∃ cs', triangulate_children cs = .ok cs' ∧
        allTrianglesInRangeList cs' = true := by
      clear hpt hidx
      induction cs with
      | nil => exact ⟨[], rfl, rfl⟩
      | cons c rest ihrest =>
        simp only [goodForTriangulateList, Bool.and_eq_true] at hcsgood
        obtain ⟨hc, hrest⟩ := hcsgood
        obtain ⟨q, hq, hq2⟩ := ih c (List.mem_cons_self c rest) hc
        obtain ⟨qs, hqs, hqs2⟩ :=
          ihrest (fun c' hc' hgood => ih c' (List.mem_cons_of_mem _ hc') hgood) hrest
        refine ⟨q :: qs, ?_, ?_⟩
        · simp only [triangulate_children, bind, Except.bind, hq, hqs]
          rfl
        · simp only [allTrianglesInRangeList, hq2, hqs2, Bool.and_self]
    obtain ⟨cs', hcs', hcs'2⟩ := hchild
    match pt, hpt with
    | .Triangles, _ =>
      refine ⟨.mk nm po .Triangles vs idx cs', ?_, ?_⟩
      · simp only [S3OPiece.triangulate_faces, bind, Except.bind, hcs']
        rfl
      · simp only [allTrianglesInRange, hidx, hcs'2, Bool.and_true,
          decide_eq_true_eq, Bool.and_eq_true]
    | .Quads, hq4 =>
      have h4 : idx.length % 4 = 0 := by
        simpa using hq4
      refine ⟨.mk nm po .Triangles vs (quad_new_idx idx) cs', ?_, ?_⟩
      · simp only [S3OPiece.triangulate_faces]
        rw [if_neg (by omega : ¬idx.length % 4 ≠ 0)]
        simp only [bind, Except.bind, hcs']
        rfl
      · have hsub : inRangeIdx vs (quad_new_idx idx) = true := by
          rw [quad_new_idx_eq_claim idx h4]
          exact inRangeIdx_of_sub vs idx _ (mem_claimQuadPattern idx) hidx
        simp only [allTrianglesInRange, hsub, hcs'2, Bool.and_true,
          decide_eq_true_eq, Bool.and_eq_true]

theorem triangulate_faces_good_input_witness :
    goodForTriangulate
        (S3OPiece.mk [113] ⟨0, 0, 0⟩ .Quads [defaultVertex] [0, 0, 0, 0]
          [S3OPiece.mk [99] ⟨0, 0, 0⟩ .Triangles [defaultVertex] [0, 0, 0] []] :
          S3OPiece ℚ) = true ∧
      ∃ q, (S3OPiece.mk [113] ⟨0, 0, 0⟩ .Quads [defaultVertex] [0, 0, 0, 0]
          [S3OPiece.mk [99] ⟨0, 0, 0⟩ .Triangles [defaultVertex] [0, 0, 0] []] :
          S3OPiece ℚ).triangulate_faces = .ok q ∧
        allTrianglesInRange q = true :=
  ⟨by decide,
    triangulate_faces_good_input
      (S3OPiece.mk [113] ⟨0, 0, 0⟩ .Quads [defaultVertex] [0, 0, 0, 0]
        [S3OPiece.mk [99] ⟨0, 0, 0⟩ .Triangles [defaultVertex] [0, 0, 0] []])
      (by decide)⟩

/-- C4 (counterexample to the claim as stated): a `Quads` piece with the 4
in-range indices `[0, 1, 2, 3]` completes `triangulate_faces` normally, but
the resulting `Triangles` index list `[0, 1, 0, 2, 3]` has 5 entries —
`5 % 3 = 2` — so the index count is not a multiple of 3 after
triangulation. -/
theorem quads_output_not_multiple_of_three :
    S3OPiece.triangulate_faces
        (.mk [113] ⟨0, 0, 0⟩ .Quads
          [defaultVertex, defaultVertex, defaultVertex, defaultVertex]
          [0, 1, 2, 3] [] : S3OPiece ℚ) =
      .ok (.mk [113] ⟨0, 0, 0⟩ .Triangles
        [defaultVertex, defaultVertex, defaultVertex, defaultVertex]
        [0, 1, 0, 2, 3] []) ∧
    ([0, 1, 0, 2, 3] : List Int).length % 3 = 2 := by
  constructor
  · rfl
  · rfl

/-- C5: for every piece with `primitive_type == Quads`: if the index count
is not a multiple of 4, `triangulate_faces` degenerates the piece to
`Triangles` with an empty index list (returning early, before the child
recursion); otherwise each consecutive group of 4 indices `(a, b, c, d)`
contributes exactly the flattened pattern `(a, b, a, c, d)`, in group order
(given that the recursion into the children returns normally). -/
theorem quads_triangulation (nm : List Nat) (po : Vec3 ℚ)
    (vs : List (S3OVertex ℚ)) (idx : List Int) (cs : List (S3OPiece ℚ)) :
    (idx.length % 4 ≠ 0 →
      S3OPiece.triangulate_faces (.mk nm po .Quads vs idx cs) =
        .ok (.mk nm po .Triangles vs [] cs)) ∧
    (∀ cs', idx.length % 4 = 0 → triangulate_children cs = .ok cs' →
      S3OPiece.triangulate_faces (.mk nm po .Quads vs idx cs) =
        .ok (.mk nm po .Triangles vs (claimQuadPattern idx) cs')) := by
  constructor
  · intro h
    simp only [S3OPiece.triangulate_faces]
    rw [if_pos h]
    rfl
  · intro cs' h hcs
    simp only [S3OPiece.triangulate_faces]
    rw [if_neg (by omega : ¬idx.length % 4 ≠ 0)]
    rw [quad_new_idx_eq_claim idx h]
    simp only [bind, Except.bind, hcs]
    rfl

theorem quads_triangulation_witness :
    (([0, 1, 2, 3] : List Int).length % 4 = 0 ∧
      triangulate_children ([] : List (S3OPiece ℚ)) = .ok []) ∧
    S3OPiece.triangulate_faces
        (.mk [113] ⟨0, 0, 0⟩ .Quads [] [0, 1, 2, 3] [] : S3OPiece ℚ) =
      .ok (.mk [113] ⟨0, 0, 0⟩ .Triangles [] [0, 1, 0, 2, 3] []) :=
  ⟨⟨by decide, by rfl⟩,
    (quads_triangulation [113] ⟨0, 0, 0⟩ [] [0, 1, 2, 3] []).2 []
      (by decide) (by rfl)⟩

/-- C6 (the code, evaluated at the failing input): on a `TriangleStrips`
piece with indices `[0, 1, 2]`, `triangulate_faces` raises `AttributeError`
(line 435 reads `S3OPiece.primitive_type`, which is only a class
annotation), so the piece's index list is never replaced and no `Triangles`
state is reached; moreover the window loop that precedes the failure
collects *2-element* windows — `strip_new_idx [0,1,2] = [0,1]` — checking
and appending only `indices[i]` and `indices[i+1]` (`self.indices[i:i+2]`),
not the 3-index windows the claim describes. -/
theorem strips_triangulation_crashes :
    S3OPiece.triangulate_faces
        (.mk [115] ⟨0, 0, 0⟩ .TriangleStrips
          [defaultVertex, defaultVertex, defaultVertex] [0, 1, 2] [] :
          S3OPiece ℚ) =
      .error .attributeError ∧
    strip_new_idx [0, 1, 2] = [0, 1] := by
  constructor
  · rfl
  · rfl

/-- C10: `rescale` changes only `parent_offset` and vertex positions (each
multiplied by the scale, recursively through the subtree — names, primitive
types, index lists and every vertex's `(normal, tex_coords)` payload are
unchanged), and `mergechildren` changes only vertex positions, index values
and the children list (the root's name/offset/type are kept, the children
list becomes empty, the index count is the total of the subtree, and the
`(normal, tex_coords)` payload — hence the packed AO — of every vertex of
the subtree survives, in preorder). -/
theorem rescale_merge_frame_effects (p : S3OPiece ℚ) (s : ℚ) :
    (treeNames (p.rescale s) = treeNames p ∧
      treePrimTypes (p.rescale s) = treePrimTypes p ∧
      treeIndexLists (p.rescale s) = treeIndexLists p ∧
      treeTexNs (p.rescale s) = treeTexNs p ∧
      treePositions (p.rescale s) = (treePositions p).map (vecScale s) ∧
      treeOffsets (p.rescale s) = (treeOffsets p).map (vecScale s)) ∧
    (vertsTexNs (p.mergechildren).vertices = treeTexNs p ∧
      (p.mergechildren).children = [] ∧
      (p.mergechildren).name = p.name ∧
      (p.mergechildren).parent_offset = p.parent_offset ∧
      (p.mergechildren).primitive_type = p.primitive_type ∧
      (p.mergechildren).indices.length =
        ((treeIndexLists p).map List.length).sum) := by
  refine ⟨⟨rescale_treeNames s p, rescale_treePrimTypes s p,
    rescale_treeIndexLists s p, rescale_treeTexNs s p,
    rescale_treePositions s p, rescale_treeOffsets s p⟩,
    mergechildren_vertsTexNs p, ?_⟩
  cases p with
  | mk nm po pt vs idx cs =>
    obtain ⟨nv, ni, h⟩ := mergechildren_mk nm po pt vs idx cs
    have hlen := mergechildren_idx_len (S3OPiece.mk nm po pt vs idx cs)
    rw [h] at hlen
    rw [h]
    exact ⟨rfl, rfl, rfl, rfl, hlen⟩

/-- C7 (the code, evaluated at the failing input): `optimize_piece` raises
`TypeError` for every piece with a non-empty index list — the dedup dict
`remap` is keyed by `S3OVertex` tuples of unfrozen, hence unhashable,
`mathutils.Vector`s — so no deduplicated piece with `N - M` vertices is
ever produced.  The one completing input shape, an empty index list,
clears the vertex list entirely: here `N = 2` pairwise-distinct vertices,
`M = 0`, yet 0 vertices remain, not `N - M = 2`. -/
theorem optimize_piece_unhashable_vertices :
    optimize_piece (.mk [99] ⟨0, 0, 0⟩ .Triangles [defaultVertex, c7_vB]
        [0, 0, 0] []) = .error .typeError ∧
    optimize_piece (.mk [99] ⟨0, 0, 0⟩ .Triangles [defaultVertex, c7_vB]
        [] []) = .ok (.mk [99] ⟨0, 0, 0⟩ .Triangles [] [] []) := by
  constructor
  · rfl
  · rfl

/-- C8 (the code, evaluated at the failing input): no optimized index
stream exists whose average transform-to-vertex ratio could be compared
with the original's — `optimize_piece` raises `TypeError` on the first
iteration of its remap loop (unhashable unfrozen `mathutils.Vector`s
inside the `S3OVertex` dict key) for every piece with a non-empty index
list, so the `acmr_new < acmr` guard (lines 150-159) never executes; it is
doubly unreachable, since its guard also requires
`piece.primitive_type == "triangles"`, an enum-to-`str` comparison that is
always false.  The one completing case, an empty index list, is returned
with an empty index list — no reordering, and trivially no ACMR
regression. -/
theorem optimize_acmr_guard_unreachable :
    optimize_piece (.mk [116] ⟨0, 0, 0⟩ .Triangles [defaultVertex]
        [0, 0, 0, 0, 0, 0] []) = .error .typeError ∧
    optimize_piece (.mk [116] ⟨0, 0, 0⟩ .Triangles [defaultVertex] [] []) =
      .ok (.mk [116] ⟨0, 0, 0⟩ .Triangles [] [] []) := by
  constructor
  · rfl
  · rfl

/-- C9: the `ambient_occlusion` property *getter* divides the U channel by
`2^14` instead of multiplying.  Concretely: after packing the AO value `0.5`
into a vertex with `u = 0` (giving `u = 1/32768`), the getter returns
`1/2^29 ≈ 1.9e-9`, while the formula the claim (and the code's own
`get_vertex_ao_value_01` together with the setter's packing) prescribes,
`(u * 2^14) mod 1`, returns the packed `0.5`. -/
theorem ambient_occlusion_getter_divides :
    (defaultVertex.set_ambient_occlusion (1 / 2)).tex_coords.u = 1 / 32768 ∧
      (defaultVertex.set_ambient_occlusion (1 / 2)).ambient_occlusion =
        1 / 536870912 ∧
      get_vertex_ao_value_01
          (defaultVertex.set_ambient_occlusion (1 / 2)).tex_coords.u = 1 / 2 := by
  refine ⟨?_, ?_, ?_⟩ <;>
    norm_num [S3OVertex.set_ambient_occlusion, S3OVertex.ambient_occlusion,
      get_vertex_ao_value_01, pyMod, defaultVertex]

end S3O_Spec
